import Mathlib

/-!
# Verification of the batch fan-out/fan-in executor notebook

Shallow embedding of the multiprocessing notebook (parallel and serial
versions of the data-frame workload) and of the H1B state-aggregation
query, together with proofs of the specification's claims about them.

Tables are modelled with exact rational entries; a pandas `DataFrame`
is a list of rows plus a list of column labels.  A column label is
either a default integer label (`RangeIndex`, produced by
`pd.DataFrame(list_of_lists)`) or a named column coming from a CSV
header.
-/

namespace NotebookModel

/-- A column label of a pandas data frame: either a default integer
label (as produced by `pd.DataFrame` on a list of lists) or a string
name (as read from a CSV header). -/
inductive ColLabel where
  | nat (n : Nat)
  | str (s : String)
deriving DecidableEq, Repr

/-- One row of a table: a list of rational entries. -/
abbrev Row := List ℚ

/-- Model of a pandas `DataFrame`: column labels plus row-major data. -/
structure DataFrame where
  columns : List ColLabel
  rows : List Row
deriving DecidableEq, Repr

/-- `df * c` in pandas: elementwise scalar multiplication, keeping the
column labels. -/
def dfScalarMul (c : ℚ) (df : DataFrame) : DataFrame :=
  ⟨df.columns, df.rows.map (fun r => r.map (fun x => x * c))⟩

/-- The loop body `df = df * 1.0` of `processData`. -/
def mulOneStep (df : DataFrame) : DataFrame := dfScalarMul 1 df

/-- `processData` of the parallel cell: `for i in range(100000): df = df * 1.0`
followed by `return df.values.tolist()` — the iterated elementwise
multiplication by 1.0, returning the row data as a plain list of lists. -/
def processData (df : DataFrame) : List Row :=
  (mulOneStep^[100000] df).rows

/-- `processData` of the serial cell: the same loop, but `return df`
(the whole data frame, column labels included). -/
def processDataSerial (df : DataFrame) : DataFrame :=
  mulOneStep^[100000] df

/-- `collect_results`, the `apply_async` completion callback:
`results.extend(result)`. -/
def collect_results (results : List Row) (result : List Row) : List Row :=
  results ++ result

/-- The state of the shared `results` list after the callback has run,
in completion order, on each delivered job result. -/
def runCallbacks (completions : List (List Row)) : List Row :=
  completions.foldl collect_results []

/-- The outcome of one worker executing a job's transformation:
either the returned list of rows, or a raised exception. -/
abbrev JobOutcome := Except String (List Row)

/-- The results actually handed to the callback by `Pool.apply_async`:
when the worker's function raises, the exception is stored in the
(unread) `AsyncResult` and the callback is simply never invoked, so a
failing job contributes nothing. `outcomes` is listed in completion
order. -/
def deliveredResults (outcomes : List JobOutcome) : List (List Row) :=
  outcomes.filterMap (fun o => o.toOption)

/-- The longest row length, used by `pd.DataFrame` on a list of lists to
size the default integer column index. -/
def maxRowLen (rows : List Row) : Nat :=
  rows.foldr (fun r m => max r.length m) 0

/-- `pd.DataFrame(list_of_lists)`: the rows as given, with a default
integer column index `0 .. n-1` sized by the widest row (the empty list
yields a frame with no columns). -/
def pdDataFrame (rows : List Row) : DataFrame :=
  ⟨(List.range (maxRowLen rows)).map ColLabel.nat, rows⟩

/-- The whole parallel main block, seen from the orchestrator: the jobs
are dispatched with `apply_async`, the pool is closed and joined, and
`pd.DataFrame(results)` is built from the shared list.  `workerCount`
is the pool size (`multiprocessing.cpu_count()` in the notebook); it
influences only scheduling, which the model captures through the
completion-ordered `outcomes` list, never the collected data.  The call
always returns a frame: joining the pool does not re-raise worker
exceptions. -/
def submit (workerCount : Nat) (outcomes : List JobOutcome) : DataFrame :=
  pdDataFrame (runCallbacks (deliveredResults outcomes))

/-- The serial main block's loop: `for i in range(10):
results.append(processData(df))`, starting from a given accumulator. -/
def serialLoop (inputs : List DataFrame) (results : List DataFrame) : List DataFrame :=
  inputs.foldl (fun acc d => acc ++ [processDataSerial d]) results

/-- `pd.concat(results, axis=0, ignore_index=True)` for frames sharing
one column schema: the first frame's columns, rows concatenated in
order. -/
def pdConcat (dfs : List DataFrame) : DataFrame :=
  ⟨((dfs.head?).map DataFrame.columns).getD [], (dfs.map DataFrame.rows).flatten⟩

/-- The whole serial main block: process each input in submission order
into the `results` list (starting empty), then concatenate. -/
def serialRun (inputs : List DataFrame) : DataFrame :=
  pdConcat (serialLoop inputs [])

/-- The failure scenario of the specification: ten jobs, each returning
one single-entry row, except that job 5 raises inside its
transformation. Listed in submission order, which we also take as the
completion order. -/
def failingOutcomes : List JobOutcome :=
  (List.range 10).map (fun (i : Nat) =>
    if i = 5 then Except.error "boom" else Except.ok [[(i : ℚ)]])

end NotebookModel

namespace H1BModel

/-- One row of the `data` frame of the H1B notebook's query cell, after
`data = dsJobs[["Work_State_Code", "Census_2015"]]`: a state code and
that filing's `Census_2015` value. -/
structure H1BRow where
  state : String
  census : ℚ
deriving DecidableEq, Repr

/-- `data["Job_Per_10000"] = 10000 * (1 / data["Census_2015"])` — the
per-row derived column. -/
def jobPer10000 (r : H1BRow) : ℚ := 10000 * (1 / r.census)

/-- The rows of one `groupby(['Work_State_Code'])` group. -/
def stateRows (rows : List H1BRow) (s : String) : List H1BRow :=
  rows.filter (fun r => r.state == s)

/-- The `Census_2015` column of the `.sum()`-aggregated frame for the
group of state `s`. -/
def aggCensus (rows : List H1BRow) (s : String) : ℚ :=
  ((stateRows rows s).map H1BRow.census).sum

/-- The `Job_Per_10000` column of the `.sum()`-aggregated frame for the
group of state `s`. -/
def aggJobPer10000 (rows : List H1BRow) (s : String) : ℚ :=
  ((stateRows rows s).map jobPer10000).sum

end H1BModel

namespace NotebookModel

/-- The shared accumulator discipline: folding `collect_results` over
the delivered results is plain concatenation. -/
theorem runCallbacks_eq_join (completions : List (List Row)) :
    runCallbacks completions = completions.flatten := by
  have h : ∀ (acc : List Row), completions.foldl collect_results acc = acc ++ completions.flatten := by
    induction completions with
    | nil => intro acc; simp [List.flatten]
    | cons c cs ih =>
        intro acc
        simp only [List.foldl_cons, List.flatten_cons, ih, collect_results]
        simp [List.append_assoc]
  simpa [runCallbacks] using h []

/-- Multiplying every entry by `1` leaves the frame unchanged. -/
theorem mulOneStep_id (df : DataFrame) : mulOneStep df = df := by
  cases df with
  | mk cols rows =>
      simp [mulOneStep, dfScalarMul, List.map_id]

/-- Iterating the loop body any number of times leaves the frame
unchanged. -/
theorem mulOneStep_iterate (n : Nat) (df : DataFrame) : mulOneStep^[n] df = df := by
  induction n with
  | zero => rfl
  | succ k ih => rw [Function.iterate_succ_apply, mulOneStep_id, ih]

/-- The parallel transformation returns the input's rows unchanged. -/
theorem processData_eq_rows (df : DataFrame) : processData df = df.rows := by
  simp [processData, mulOneStep_iterate]

/-- The serial transformation returns the input frame unchanged. -/
theorem processDataSerial_eq (df : DataFrame) : processDataSerial df = df := by
  simp [processDataSerial, mulOneStep_iterate]

/-- When no job raises, every result is delivered to the callback, in
completion order. -/
theorem deliveredResults_ok (rs : List (List Row)) :
    deliveredResults (rs.map Except.ok) = rs := by
  induction rs with
  | nil => rfl
  | cons r t ih => simp [deliveredResults, Except.toOption] at ih ⊢; exact ih

/-- The serial loop appends the processed frames in submission order. -/
theorem serialLoop_eq (inputs : List DataFrame) (acc : List DataFrame) :
    serialLoop inputs acc = acc ++ inputs.map processDataSerial := by
  induction inputs generalizing acc with
  | nil => simp [serialLoop]
  | cons d t ih =>
      simp only [serialLoop, List.foldl_cons, List.map_cons] at ih ⊢
      rw [ih]
      simp

/-- Since the serial transformation is the identity, the serial run
concatenates the inputs themselves. -/
theorem serialRun_eq (inputs : List DataFrame) :
    serialRun inputs =
      ⟨((inputs.head?).map DataFrame.columns).getD [],
       (inputs.map DataFrame.rows).flatten⟩ := by
  have hps : processDataSerial = fun df => df := funext processDataSerial_eq
  simp [serialRun, serialLoop_eq, pdConcat, hps]

/-- On a non-empty list of rows all of one length, the widest row has
that length. -/
theorem maxRowLen_const (rows : List Row) (w : Nat) (hne : rows ≠ [])
    (hw : ∀ r ∈ rows, r.length = w) : maxRowLen rows = w := by
  induction rows with
  | nil => exact absurd rfl hne
  | cons r t ih =>
      have hr : r.length = w := hw r (List.mem_cons_self r t)
      cases t with
      | nil => simp [maxRowLen, hr]
      | cons s u =>
          have ht : maxRowLen (s :: u) = w := by
            refine ih (by simp) ?_
            intro x hx
            exact hw x (List.mem_cons_of_mem r hx)
          simp only [maxRowLen, List.foldr_cons] at ht ⊢
          rw [ht, hr, Nat.max_self]

/-- A list-of-lists coerced to a multiset: flattening commutes with the
multiset sum of the blocks. -/
theorem coe_flatten_eq_sum (L : List (List Row)) :
    Multiset.ofList L.flatten = (L.map Multiset.ofList).sum := by
  induction L with
  | nil => rfl
  | cons a t ih =>
      rw [List.flatten_cons, List.map_cons, List.sum_cons, ← ih]
      exact Multiset.coe_add a t.flatten

/-- Permuting the blocks permutes the flattened list. -/
theorem flatten_perm_of_perm (L₁ L₂ : List (List Row)) (h : L₁.Perm L₂) :
    (L₁.flatten).Perm (L₂.flatten) := h.flatten

/-- When every job succeeds, the combined frame's rows are the
flattening of the results in completion order. -/
theorem submit_rows_ok (k : Nat) (completed : List (List Row)) :
    (submit k (completed.map Except.ok)).rows = completed.flatten := by
  simp [submit, pdDataFrame, deliveredResults_ok, runCallbacks_eq_join]

/-- If the completion order is a permutation of the (all-successful)
submission-order results, the combined rows are a permutation of the
flattened submission-order results. -/
theorem submit_rows_perm (k : Nat) (order : List JobOutcome) (rs : List (List Row))
    (h : order.Perm (rs.map Except.ok)) :
    ((submit k order).rows).Perm rs.flatten := by
  have hdel : (deliveredResults order).Perm rs := by
    have h₁ : (deliveredResults order).Perm (deliveredResults (rs.map Except.ok)) := by
      unfold deliveredResults
      exact h.filterMap _
    rwa [deliveredResults_ok] at h₁
  have : (submit k order).rows = (deliveredResults order).flatten := by
    simp [submit, pdDataFrame, runCallbacks_eq_join]
  rw [this]
  exact hdel.flatten

/-- Dropping at least one element, `filterMap` strictly shrinks the
list when some element maps to `none`. -/
theorem length_filterMap_lt_of_none {α β : Type} (f : α → Option β) (l : List α)
    (x : α) (hx : x ∈ l) (hnone : f x = none) :
    (l.filterMap f).length < l.length := by
  induction l with
  | nil => cases hx
  | cons a t ih =>
      by_cases hax : f a = none
      · rw [List.filterMap_cons_none hax]
        calc (t.filterMap f).length ≤ t.length := List.length_filterMap_le f t
          _ < (a :: t).length := by simp
      · obtain ⟨b, hb⟩ := Option.ne_none_iff_exists'.mp hax
        rw [List.filterMap_cons_some hb]
        have hxt : x ∈ t := by
          rcases List.mem_cons.mp hx with h | h
          · exact absurd (h ▸ hnone) (by simp [hb])
          · exact h
        have := ih hxt
        simpa using Nat.succ_lt_succ this

end NotebookModel

namespace NotebookModel

/-- C8: the job transformation `processData` is value-preserving — for
every numeric input table, applying the elementwise multiplication by
1.0 a hundred thousand times returns exactly the input's rows (same
shape, same values); likewise the serial variant returns the input
frame unchanged. -/
theorem claim_C8_processData_value_preserving (df : DataFrame) :
    processData df = df.rows ∧
    (processData df).length = df.rows.length ∧
    processDataSerial df = df :=
  ⟨processData_eq_rows df, by rw [processData_eq_rows], processDataSerial_eq df⟩

/-- C7: the sequential reference path is deterministic — two runs of
the serial main block on the same job sequence `J` produce identical
CombinedTables: identical row data (hence identical row order) and
identical column labels. -/
theorem claim_C7_serial_deterministic (J : List DataFrame) (r₁ r₂ : DataFrame)
    (h₁ : r₁ = serialRun J) (h₂ : r₂ = serialRun J) :
    r₁ = r₂ ∧ r₁.rows = r₂.rows ∧ r₁.columns = r₂.columns := by
  subst h₁; subst h₂; exact ⟨rfl, rfl, rfl⟩

/-- Witness for C7 at a concrete one-job sequence. -/
theorem claim_C7_witness :
    (serialRun [DataFrame.mk [ColLabel.str "A"] [[1]] ] =
       serialRun [DataFrame.mk [ColLabel.str "A"] [[1]] ]) :=
  (claim_C7_serial_deterministic [DataFrame.mk [ColLabel.str "A"] [[1]] ] _ _ rfl rfl).1

/-- C5: for every finite sequence of jobs and every completion order
(an arbitrary list `completed` of JobResults, listed in completion
order), the CombinedTable of the parallel path is the row-concatenation
of the JobResults in exactly that order, and after each completion the
accumulator equals the concatenation of the JobResults completed so
far. -/
theorem claim_C5_completion_order_concat (k : Nat) (completed : List (List Row)) :
    (submit k (completed.map Except.ok)).rows = completed.flatten ∧
    ∀ i : Nat, runCallbacks (completed.take i) = (completed.take i).flatten :=
  ⟨submit_rows_ok k completed, fun _ => runCallbacks_eq_join _⟩

/-- C3: for every finite sequence of all-successful jobs and every
completion order (a permutation of the submission-order results), the
CombinedTable's row count is the sum of the JobResults' row counts and
its multiset of rows is the multiset union of the JobResults' rows —
no row duplicated or dropped, regardless of completion order. -/
theorem claim_C3_no_row_lost (k : Nat) (results : List (List Row))
    (order : List (List Row)) (hperm : order.Perm results) :
    (submit k (order.map Except.ok)).rows.length = (results.map List.length).sum ∧
    Multiset.ofList (submit k (order.map Except.ok)).rows =
      (results.map Multiset.ofList).sum := by
  rw [submit_rows_ok]
  constructor
  · rw [List.length_flatten]
    exact (hperm.map List.length).sum_eq
  · rw [coe_flatten_eq_sum]
    exact congrArg Multiset.sum (Multiset.coe_eq_coe.mpr (hperm.map Multiset.ofList))

/-- Witness for C3: three jobs completing in a non-submission order. -/
theorem claim_C3_witness :
    ([[[(3 : ℚ)]], [[1], [2]]].Perm [[[(1 : ℚ)], [2]], [[3]]]) ∧
    (submit 8 ([[[(3 : ℚ)]], [[1], [2]]].map Except.ok)).rows.length =
      ([[[(1 : ℚ)], [2]], [[3]]].map List.length).sum :=
  ⟨by decide,
   (claim_C3_no_row_lost 8 [[[(1 : ℚ)], [2]], [[3]]] [[[(3 : ℚ)]], [[1], [2]]]
      (by decide)).1⟩

end NotebookModel

namespace NotebookModel

/-- C2: for the workload of 10 identical jobs on a 150-row, 5-column
input table (5 declared columns), any completion order of the parallel
path with `workerCount = 8` yields a CombinedTable of shape (1500, 5),
and the sequential reference path on the same 10 jobs also yields
shape (1500, 5) with rows in exact submission order (job 0's 150 rows
first, then job 1's, and so on). -/
theorem claim_C2_scenario_shape (df : DataFrame)
    (h150 : df.rows.length = 150) (h5 : ∀ r ∈ df.rows, r.length = 5)
    (hc : df.columns.length = 5)
    (order : List JobOutcome)
    (hperm : order.Perm ((List.replicate 10 df).map (fun d => Except.ok (processData d)))) :
    (submit 8 order).rows.length = 1500 ∧
    (submit 8 order).columns.length = 5 ∧
    (serialRun (List.replicate 10 df)).rows.length = 1500 ∧
    (serialRun (List.replicate 10 df)).columns.length = 5 ∧
    (serialRun (List.replicate 10 df)).rows = (List.replicate 10 df.rows).flatten := by
  have hperm2 : order.Perm ((List.replicate 10 df.rows).map Except.ok) := by
    simpa [List.map_replicate, processData_eq_rows] using hperm
  have hrp : ((submit 8 order).rows).Perm ((List.replicate 10 df.rows).flatten) :=
    submit_rows_perm 8 order _ hperm2
  have hlen : (submit 8 order).rows.length = 1500 := by
    rw [hrp.length_eq, List.length_flatten]
    simp [List.map_replicate, h150]
  have hmem : ∀ r ∈ (submit 8 order).rows, r.length = 5 := by
    intro r hr
    have hr2 : r ∈ (List.replicate 10 df.rows).flatten := hrp.mem_iff.mp hr
    obtain ⟨b, hb, hrb⟩ := List.mem_flatten.mp hr2
    have hbd : b = df.rows := List.eq_of_mem_replicate hb
    exact h5 r (hbd ▸ hrb)
  have hnempty : (submit 8 order).rows ≠ [] := by
    intro h; rw [h] at hlen; simp at hlen
  have hmax : maxRowLen (submit 8 order).rows = 5 :=
    maxRowLen_const _ 5 hnempty hmem
  have hcols : (submit 8 order).columns.length = 5 := by
    show ((List.range (maxRowLen (runCallbacks (deliveredResults order)))).map
      ColLabel.nat).length = 5
    have : maxRowLen (runCallbacks (deliveredResults order)) = 5 := hmax
    rw [this]; simp
  have hserrows : (serialRun (List.replicate 10 df)).rows =
      (List.replicate 10 df.rows).flatten := by
    rw [serialRun_eq]; simp [List.map_replicate]
  have hserlen : (serialRun (List.replicate 10 df)).rows.length = 1500 := by
    rw [hserrows, List.length_flatten]
    simp [List.map_replicate, h150]
  have hsercols : (serialRun (List.replicate 10 df)).columns.length = 5 := by
    rw [serialRun_eq]
    simpa [List.replicate_succ] using hc
  exact ⟨hlen, hcols, hserlen, hsercols, hserrows⟩

/-- Witness for C2 at a concrete 150 × 5 table of zeros, with the
completion order equal to the submission order. -/
theorem claim_C2_witness :
    (submit 8 ((List.replicate 10
        (DataFrame.mk
          [ColLabel.str "Type", ColLabel.str "PW", ColLabel.str "PL",
           ColLabel.str "SW", ColLabel.str "SL"]
          (List.replicate 150 (List.replicate 5 (0 : ℚ))))).map
        (fun d => Except.ok (processData d)))).rows.length = 1500 :=
  (claim_C2_scenario_shape
    (DataFrame.mk
      [ColLabel.str "Type", ColLabel.str "PW", ColLabel.str "PL",
       ColLabel.str "SW", ColLabel.str "SL"]
      (List.replicate 150 (List.replicate 5 (0 : ℚ))))
    (by simp) (by intro r hr; simp [List.eq_of_mem_replicate hr]) (by simp)
    _ (List.Perm.refl _)).1

/-- C4: the collected result content is independent of the worker
count — for any `k₁, k₂ ≥ 1` (including counts above the number of
jobs) and any completion orders, the parallel path yields the same
multiset of rows, and that multiset equals the sequential reference
path's. -/
theorem claim_C4_content_independent_of_workerCount (inputs : List DataFrame)
    (k₁ k₂ : Nat) (hk₁ : 1 ≤ k₁) (hk₂ : 1 ≤ k₂)
    (o₁ o₂ : List JobOutcome)
    (h₁ : o₁.Perm (inputs.map (fun d => Except.ok (processData d))))
    (h₂ : o₂.Perm (inputs.map (fun d => Except.ok (processData d)))) :
    Multiset.ofList (submit k₁ o₁).rows = Multiset.ofList (submit k₂ o₂).rows ∧
    Multiset.ofList (submit k₁ o₁).rows = Multiset.ofList (serialRun inputs).rows := by
  have hmap : inputs.map (fun d => (Except.ok (processData d) : JobOutcome))
      = (inputs.map DataFrame.rows).map (Except.ok : List Row → JobOutcome) := by
    simp only [List.map_map]
    exact List.map_congr_left (fun d _ => by rw [Function.comp_apply, processData_eq_rows])
  have p₁ : ((submit k₁ o₁).rows).Perm ((inputs.map DataFrame.rows).flatten) :=
    submit_rows_perm k₁ o₁ _ (hmap ▸ h₁)
  have p₂ : ((submit k₂ o₂).rows).Perm ((inputs.map DataFrame.rows).flatten) :=
    submit_rows_perm k₂ o₂ _ (hmap ▸ h₂)
  have hser : (serialRun inputs).rows = (inputs.map DataFrame.rows).flatten := by
    rw [serialRun_eq]
  refine ⟨Multiset.coe_eq_coe.mpr (p₁.trans p₂.symm), ?_⟩
  rw [hser]
  exact Multiset.coe_eq_coe.mpr p₁

/-- Witness for C4: two jobs, worker counts 1 and 9, the second run
completing in reversed order. -/
theorem claim_C4_witness :
    (1 ≤ 1) ∧ (1 ≤ 9) ∧
    Multiset.ofList
        (submit 1 ([DataFrame.mk [ColLabel.str "A"] [[1], [2]],
                    DataFrame.mk [ColLabel.str "A"] [[3]]].map
          (fun d => Except.ok (processData d)))).rows =
      Multiset.ofList
        (submit 9 (([DataFrame.mk [ColLabel.str "A"] [[1], [2]],
                     DataFrame.mk [ColLabel.str "A"] [[3]]].map
          (fun d => Except.ok (processData d))).reverse)).rows :=
  ⟨by decide, by decide,
   (claim_C4_content_independent_of_workerCount
     [DataFrame.mk [ColLabel.str "A"] [[1], [2]],
      DataFrame.mk [ColLabel.str "A"] [[3]]]
     1 9 (by decide) (by decide) _ _ (List.Perm.refl _)
     (List.reverse_perm _)).1⟩

end NotebookModel

namespace NotebookModel

/-- C6 counterexample: on the empty job sequence with `workerCount = 8`
the parallel path builds `pd.DataFrame([])`, a frame with zero rows but
also zero columns — it does not carry the workload's declared 5-column
schema. -/
theorem claim_C6_counterexample :
    (submit 8 []).rows = [] ∧ (submit 8 []).columns = [] ∧
    (submit 8 []).columns.length ≠ 5 := by decide

/-- C6 amended: for every `workerCount ≥ 1`, submitting the empty job
sequence returns an empty CombinedTable with zero rows — and zero
columns: the declared column schema of the workload is not carried,
because `pd.DataFrame` on an empty list has no column index to infer. -/
theorem claim_C6_empty_submit (k : Nat) (hk : 1 ≤ k) :
    submit k [] = DataFrame.mk [] [] := rfl

/-- Witness for C6 at `workerCount = 8`. -/
theorem claim_C6_witness :
    (1 ≤ 8) ∧ submit 8 [] = DataFrame.mk [] [] :=
  ⟨by decide, claim_C6_empty_submit 8 (by decide)⟩

/-- C1 counterexample: in the failure scenario (job 5 of 10 raises),
`submit` does not fail — it returns a CombinedTable holding exactly the
nine successful jobs' rows, a silent partial success, because the
raised exception only sits in the unread `AsyncResult` and the
completion callback never fires for job 5. -/
theorem claim_C1_counterexample :
    (submit 8 failingOutcomes).rows =
      [[(0 : ℚ)], [1], [2], [3], [4], [6], [7], [8], [9]] ∧
    (submit 8 failingOutcomes).rows ≠ [] := by decide

/-- C1 amended: whenever some job's transformation raises, `submit`
still returns a CombinedTable — the flattening of exactly the delivered
(successful) results — and strictly fewer results than jobs are
delivered: the failure is silently dropped, producing a partial
success rather than a propagated error. -/
theorem claim_C1_silent_partial_success (k : Nat) (outcomes : List JobOutcome)
    (e : String) (herr : Except.error e ∈ outcomes) :
    (submit k outcomes).rows = (deliveredResults outcomes).flatten ∧
    (deliveredResults outcomes).length < outcomes.length :=
  ⟨runCallbacks_eq_join _,
   length_filterMap_lt_of_none _ outcomes (Except.error e) herr rfl⟩

/-- Witness for C1 at the concrete failing scenario. -/
theorem claim_C1_witness :
    (Except.error "boom" ∈ failingOutcomes) ∧
    (deliveredResults failingOutcomes).length < failingOutcomes.length :=
  ⟨List.mem_map.mpr ⟨5, (by norm_num : (5 : Nat) ∈ List.range 10), rfl⟩,
   (claim_C1_silent_partial_success 8 failingOutcomes "boom"
     (List.mem_map.mpr ⟨5, (by norm_num : (5 : Nat) ∈ List.range 10), rfl⟩)).2⟩

/-- C9: the two paths label their CombinedTables differently — the
parallel path rebuilds the frame from plain row lists, so every column
label is a default integer, while the serial path's `pd.concat`
preserves the input's original (string) column names; hence for every
non-empty job sequence whose input has at least one named column, the
two CombinedTables are never identical as labeled tables. -/
theorem claim_C9_label_mismatch (inputs : List DataFrame) (d₀ : DataFrame)
    (hhead : inputs.head? = some d₀)
    (hstr : ∀ c ∈ d₀.columns, ∃ s, c = ColLabel.str s)
    (hne : d₀.columns ≠ [])
    (k : Nat) (order : List JobOutcome)
    (hperm : order.Perm (inputs.map (fun d => Except.ok (processData d)))) :
    (∀ c ∈ (submit k order).columns, ∃ n, c = ColLabel.nat n) ∧
    (serialRun inputs).columns = d₀.columns ∧
    (submit k order).columns ≠ (serialRun inputs).columns ∧
    submit k order ≠ serialRun inputs := by
  have hparcols : (submit k order).columns
      = (List.range (maxRowLen (runCallbacks (deliveredResults order)))).map
          ColLabel.nat := rfl
  have hsercols : (serialRun inputs).columns = d₀.columns := by
    rw [serialRun_eq]; simp [hhead]
  have hnecols : (submit k order).columns ≠ (serialRun inputs).columns := by
    rw [hsercols, hparcols]
    intro heq
    obtain ⟨c, hcmem⟩ := List.exists_mem_of_ne_nil d₀.columns hne
    obtain ⟨s, hs⟩ := hstr c hcmem
    rw [← heq] at hcmem
    obtain ⟨n, _, hn⟩ := List.mem_map.mp hcmem
    rw [hs] at hn
    cases hn
  refine ⟨?_, hsercols, hnecols, ?_⟩
  · intro c hc
    rw [hparcols] at hc
    obtain ⟨n, _, hn⟩ := List.mem_map.mp hc
    exact ⟨n, hn.symm⟩
  · intro h
    exact hnecols (congrArg DataFrame.columns h)

/-- Witness for C9 at a one-job sequence over a one-column named
table. -/
theorem claim_C9_witness :
    (submit 4 ([DataFrame.mk [ColLabel.str "A"] [[1]] ].map
        (fun d => Except.ok (processData d)))).columns
      ≠ (serialRun [DataFrame.mk [ColLabel.str "A"] [[1]] ]).columns :=
  (claim_C9_label_mismatch [DataFrame.mk [ColLabel.str "A"] [[1]] ]
    (DataFrame.mk [ColLabel.str "A"] [[1]]) rfl
    (by intro c hc; simp at hc; exact ⟨"A", hc⟩)
    (by simp) 4 _ (List.Perm.refl _)).2.2.1

end NotebookModel

namespace H1BModel

/-- C10: in the state-aggregation query, if every filing row of state
`s` carries the same (non-zero) `Census_2015` value `c`, then the
aggregated `Job_Per_10000` for `s` is `10000 ·  n / c` where `n` is the
number of filings for `s`, while the aggregated `Census_2015` column
holds `c · n` — the population multiplied by the row count, not the
population itself. -/
theorem claim_C10_state_aggregation (rows : List H1BRow) (s : String) (c : ℚ)
    (hc : c ≠ 0) (hsame : ∀ r ∈ stateRows rows s, r.census = c) :
    aggJobPer10000 rows s = 10000 * ((stateRows rows s).length : ℚ) / c ∧
    aggCensus rows s = c * ((stateRows rows s).length : ℚ) := by
  have key : ∀ (l : List H1BRow), (∀ r ∈ l, r.census = c) →
      (l.map jobPer10000).sum = (l.length : ℚ) * (10000 * (1 / c)) ∧
      (l.map H1BRow.census).sum = (l.length : ℚ) * c := by
    intro l
    induction l with
    | nil => intro _; simp
    | cons a t ih =>
        intro h
        have ha : a.census = c := h a (List.mem_cons_self a t)
        have ht := ih (fun r hr => h r (List.mem_cons_of_mem a hr))
        constructor
        · simp only [List.map_cons, List.sum_cons, List.length_cons, jobPer10000,
            ha, ht.1]
          push_cast
          ring
        · simp only [List.map_cons, List.sum_cons, List.length_cons, ha, ht.2]
          push_cast
          ring
  obtain ⟨h1, h2⟩ := key (stateRows rows s) hsame
  constructor
  · rw [aggJobPer10000, h1]
    field_simp
    ring
  · rw [aggCensus, h2]
    ring

/-- Witness for C10: two DC filings with census value 2 and one NY
filing. -/
theorem claim_C10_witness :
    ((2 : ℚ) ≠ 0) ∧
    aggJobPer10000 [H1BRow.mk "DC" 2, H1BRow.mk "DC" 2, H1BRow.mk "NY" 3] "DC"
      = 10000 * ((stateRows [H1BRow.mk "DC" 2, H1BRow.mk "DC" 2, H1BRow.mk "NY" 3]
          "DC").length : ℚ) / 2 :=
  ⟨by decide,
   (claim_C10_state_aggregation
     [H1BRow.mk "DC" 2, H1BRow.mk "DC" 2, H1BRow.mk "NY" 3] "DC" 2
     (by decide) (by decide)).1⟩

end H1BModel
